import Mathlib

/-!
Verification of the streaming sentiment-enrichment worker (`src/main.py`).

The development embeds the core enrichment function `classify_and_generate`
(lines 100-138 of `main.py`) and the per-record body of the Kafka loop
(lines 151-163) as pure Lean functions.  A text-generation backend is a
function from a prompt to either generated text (`Except.ok`) or an error
message (`Except.error`), mirroring a Python call that either returns or
raises.  Every backend invocation made by the engine is recorded in a call
trace, so that claims about which backend was attempted, how often and with
which prompt can be stated and proved.
-/

namespace SentAnalysis

/-- Which of the two configured Groq backends a call went to:
`groq_primary_llm` or `groq_fallback_llm` (`main.py` lines 46-56). -/
inductive Which where
  | primary
  | fallback
deriving DecidableEq, Repr

/-- One backend invocation: which backend was called and with what prompt. -/
structure CallRecord where
  backend : Which
  prompt : String
deriving DecidableEq, Repr

/-- A text-generation backend: given a rendered prompt it either returns the
generated text or fails with an error message (a raised exception in the
Python source, rendered here as `Except.error`). -/
def Backend : Type := String → Except String String

/-- Python `str.strip()`: drop leading and trailing whitespace.  A Python
string is a sequence of code points, modelled by the `List Char` carried by
a Lean `String`. -/
def pyStrip (s : String) : String :=
  ⟨((s.data.dropWhile Char.isWhitespace).reverse.dropWhile Char.isWhitespace).reverse⟩

/-- Python `str.lower()`: lowercase every character. -/
def pyLower (s : String) : String :=
  ⟨s.data.map Char.toLower⟩

/-- Python `s.startswith(p)`: `p` is a prefix of `s`. -/
def pyStartsWith (s p : String) : Bool :=
  p.data.isPrefixOf s.data

/-- The enrichment record built by `classify_and_generate`: a Python dict
with exactly the four keys "Caller Notes", "Sentiment Label", "Reason" and
"Next Action Items" (`main.py` lines 108-113, 116-121, 133-138). -/
structure EnrichmentResult where
  callerNotes : String
  sentimentLabel : String
  reason : String
  nextActionItems : String
deriving DecidableEq, Repr

/-- `sentiment_prompt.format(notes=notes)` (`main.py` lines 59-72): the
sentiment-classification template with `notes` substituted. -/
def sentimentPromptFormat (notes : String) : String :=
  "\nClassify the following cold call notes as one of the following sentiment labels:\n- Positive\n- Neutral / Follow-up Required\n- Negative\n\nNotes:\n"
    ++ notes ++ "\n\nReturn only the label and reason.\n"

/-- `action_prompt.format(notes=notes, sentiment=sentiment)` (`main.py`
lines 74-97): the action-recommendation template with `notes` and
`sentiment` substituted. -/
def actionPromptFormat (notes sentiment : String) : String :=
  "\nYou are a sales assistant for a Kafka-based platform called Condense.\n\nThe following are notes from a recent cold call:\n\""
    ++ notes
    ++ "\"\n\nSentiment label: "
    ++ sentiment
    ++ "\n\nBased on this:\n- If the sentiment label is \"Positive\":\n  - Carefully read the caller notes and come up with the sales reachout plan step by step which should be customised based on caller notes. Write ready-to-consume reachout and sales plan.\n\n- If the sentiment label is \"Follow-up Required\" or \"Neutral\":\n  - Check the caller notes.\n  - If there are signs of mild interest, or open-ended comments, come up with the sales reachout plan step by step which should be customised based on caller notes. Write ready-to-consume reachout and sales plan.\n\n- If the sentiment label is \"Negative\":\n  - Do not suggest any follow-up. Just say: \"No further action recommended based on negative sentiment.\"\n\nRespond clearly and helpfully.\n"

/-- `main.py` lines 115-138: the part of `classify_and_generate` that runs
once a sentiment string has been obtained (from whichever backend).  If the
(already stripped) sentiment starts, lowercased, with "negative", the
function short-circuits without invoking any further backend; otherwise it
renders the action prompt and runs the primary/fallback chain on it.
`calls` is the trace of backend invocations made so far. -/
def afterSentiment (primary fallback : Backend) (notes sentiment : String)
    (calls : List CallRecord) : EnrichmentResult × List CallRecord :=
  if pyStartsWith (pyLower sentiment) "negative" then
    ({ callerNotes := notes
       sentimentLabel := sentiment
       reason := "Negative sentiment detected"
       nextActionItems := "❌ No action recommended due to negative sentiment." },
     calls)
  else
    let prompt := actionPromptFormat notes sentiment
    let step : String × List CallRecord :=
      match primary prompt with
      | Except.ok c => (pyStrip c, calls ++ [⟨Which.primary, prompt⟩])
      | Except.error _e =>
        match fallback prompt with
        | Except.ok c =>
            (pyStrip c, calls ++ [⟨Which.primary, prompt⟩, ⟨Which.fallback, prompt⟩])
        | Except.error e2 =>
            ("❌ Both LLMs failed for action generation: " ++ e2,
             calls ++ [⟨Which.primary, prompt⟩, ⟨Which.fallback, prompt⟩])
    ({ callerNotes := notes
       sentimentLabel := sentiment
       reason := "Sentiment identified via Groq LLM"
       nextActionItems := step.1 },
     step.2)

/-- `classify_and_generate(notes)` (`main.py` lines 100-138).  The result is
`Except.error` exactly when an exception would escape the Python function;
since every backend failure is caught by a `try`/`except` block, every path
in fact produces `Except.ok` of the result dict together with the trace of
backend calls made.  `.content.strip()` is modelled by `pyStrip`. -/
def classify_and_generate (primary fallback : Backend) (notes : String) :
    Except String (EnrichmentResult × List CallRecord) :=
  let sp := sentimentPromptFormat notes
  match primary sp with
  | Except.ok c =>
      Except.ok (afterSentiment primary fallback notes (pyStrip c) [⟨Which.primary, sp⟩])
  | Except.error _e =>
    match fallback sp with
    | Except.ok c =>
        Except.ok (afterSentiment primary fallback notes (pyStrip c)
          [⟨Which.primary, sp⟩, ⟨Which.fallback, sp⟩])
    | Except.error e2 =>
        Except.ok
          ({ callerNotes := notes
             sentimentLabel := "Unknown"
             reason := "❌ Both LLMs failed for sentiment: " ++ e2
             nextActionItems := "❌ Skipped due to classification error" },
           [⟨Which.primary, sp⟩, ⟨Which.fallback, sp⟩])

/-- A JSON-ish value stored in an inbound record.  The stream loop inspects
only the `comments` field (expected to be a string) and stores an
`EnrichmentResult` under `result`; every other value is opaque. -/
inductive JVal where
  | jstr : String → JVal
  | jres : EnrichmentResult → JVal
  | jopaque : Nat → JVal
deriving DecidableEq, Repr

/-- An inbound/outbound stream record: a Python dict, i.e. an ordered list
of key/value pairs with pairwise-distinct keys. -/
abbrev Payload : Type := List (String × JVal)

/-- Python `payload.get(key, default)`: first (and, for a dict, only)
binding of `key`, or the default. -/
def dictGetD (p : Payload) (k : String) (d : JVal) : JVal :=
  match p.find? (fun kv => kv.1 = k) with
  | some kv => kv.2
  | none => d

/-- Python `payload[key] = v`: replace the value in place if `key` is
present, otherwise append the new binding at the end (insertion order). -/
def dictSet (p : Payload) (k : String) (v : JVal) : Payload :=
  if p.any (fun kv => kv.1 = k) then
    p.map (fun kv => if kv.1 = k then (k, v) else kv)
  else
    p ++ [(k, v)]

/-- One iteration of the record-processing body of the Kafka loop
(`main.py` lines 152-163), for a payload that parsed as a JSON object.
Returns the published record, or `none` when nothing is published, together
with the trace of backend calls made:
* `notes = payload.get("comments", "").strip()`; if `notes` is falsy the
  record is skipped (lines 153-156);
* if the `comments` value is not a string, `.strip()` raises and the
  per-record `except` block swallows it — nothing is published;
* otherwise `payload["result"] = classify_and_generate(notes)` and the
  updated payload is produced to the output topic (lines 158-162). -/
def processRecord (primary fallback : Backend) (payload : Payload) :
    Option Payload × List CallRecord :=
  match dictGetD payload "comments" (JVal.jstr "") with
  | JVal.jstr s =>
      let notes := pyStrip s
      if notes = "" then (none, [])
      else
        match classify_and_generate primary fallback notes with
        | Except.ok rc => (some (dictSet payload "result" (JVal.jres rc.1)), rc.2)
        | Except.error _e => (none, [])
  | _ => (none, [])

/-- Every rendered sentiment prompt starts with this text and no rendered
action prompt does (`main.py` lines 59-72 vs 74-97), so a recorded call can
be attributed to a pipeline stage by its prompt alone. -/
def isSentimentCall (c : CallRecord) : Bool :=
  pyStartsWith c.prompt "\nClassify the following cold call notes"

/-- A recorded call whose prompt is a rendered action prompt (every rendered
action prompt starts with this text and no sentiment prompt does). -/
def isActionCall (c : CallRecord) : Bool :=
  pyStartsWith c.prompt "\nYou are a sales assistant"

/-- How many of the recorded calls went to the action-generation stage. -/
def actionCallCount (calls : List CallRecord) : Nat :=
  (calls.filter isActionCall).length

/-- A backend stub that always returns the same text (a healthy model). -/
def constBackend (t : String) : Backend := fun _ => Except.ok t

/-- A backend stub that always fails with the same error (a down model). -/
def failBackend (e : String) : Backend := fun _ => Except.error e

/-- A backend stub answering `cl` to sentiment prompts and `ac` to any
other prompt, so the two stages can be driven independently in tests. -/
def stageBackend (cl ac : String) : Backend := fun p =>
  if pyStartsWith p "\nClassify the following cold call notes" then Except.ok cl
  else Except.ok ac

/-- A backend stub answering `cl` to sentiment prompts but failing with
error `e` on any other prompt (healthy classifier, broken generator). -/
def classifyOnlyBackend (cl e : String) : Backend := fun p =>
  if pyStartsWith p "\nClassify the following cold call notes" then Except.ok cl
  else Except.error e

/-! ## Helper lemmas -/

/-- A rendered sentiment prompt is recognised as a sentiment call. -/
theorem isSentimentCall_sentiment (w : Which) (n : String) :
    isSentimentCall ⟨w, sentimentPromptFormat n⟩ = true := rfl

/-- A rendered action prompt is not recognised as a sentiment call. -/
theorem isSentimentCall_action (w : Which) (n s : String) :
    isSentimentCall ⟨w, actionPromptFormat n s⟩ = false := rfl

/-- A rendered action prompt is recognised as an action call. -/
theorem isActionCall_action (w : Which) (n s : String) :
    isActionCall ⟨w, actionPromptFormat n s⟩ = true := rfl

/-- A rendered sentiment prompt is not recognised as an action call. -/
theorem isActionCall_sentiment (w : Which) (n : String) :
    isActionCall ⟨w, sentimentPromptFormat n⟩ = false := rfl

/-- The negative branch of `afterSentiment` (`main.py` lines 115-121). -/
theorem afterSentiment_neg (primary fallback : Backend) (notes sentiment : String)
    (calls : List CallRecord)
    (h : pyStartsWith (pyLower sentiment) "negative" = true) :
    afterSentiment primary fallback notes sentiment calls =
      ({ callerNotes := notes
         sentimentLabel := sentiment
         reason := "Negative sentiment detected"
         nextActionItems := "❌ No action recommended due to negative sentiment." },
       calls) := by
  simp [afterSentiment, h]

/-- The non-negative branch when the primary backend answers the action
prompt (`main.py` lines 123-125, 133-138). -/
theorem afterSentiment_nonneg_primary (primary fallback : Backend)
    (notes sentiment a : String) (calls : List CallRecord)
    (h : pyStartsWith (pyLower sentiment) "negative" = false)
    (ha : primary (actionPromptFormat notes sentiment) = Except.ok a) :
    afterSentiment primary fallback notes sentiment calls =
      ({ callerNotes := notes
         sentimentLabel := sentiment
         reason := "Sentiment identified via Groq LLM"
         nextActionItems := pyStrip a },
       calls ++ [⟨Which.primary, actionPromptFormat notes sentiment⟩]) := by
  simp [afterSentiment, h, ha]

/-- The non-negative branch when the primary fails and the fallback answers
the action prompt (`main.py` lines 126-129, 133-138). -/
theorem afterSentiment_nonneg_fallback (primary fallback : Backend)
    (notes sentiment e a : String) (calls : List CallRecord)
    (h : pyStartsWith (pyLower sentiment) "negative" = false)
    (ha : primary (actionPromptFormat notes sentiment) = Except.error e)
    (hb : fallback (actionPromptFormat notes sentiment) = Except.ok a) :
    afterSentiment primary fallback notes sentiment calls =
      ({ callerNotes := notes
         sentimentLabel := sentiment
         reason := "Sentiment identified via Groq LLM"
         nextActionItems := pyStrip a },
       calls ++ [⟨Which.primary, actionPromptFormat notes sentiment⟩,
                 ⟨Which.fallback, actionPromptFormat notes sentiment⟩]) := by
  simp [afterSentiment, h, ha, hb]

/-- The non-negative branch when both backends fail on the action prompt
(`main.py` lines 130-131, 133-138). -/
theorem afterSentiment_nonneg_bothfail (primary fallback : Backend)
    (notes sentiment e e2 : String) (calls : List CallRecord)
    (h : pyStartsWith (pyLower sentiment) "negative" = false)
    (ha : primary (actionPromptFormat notes sentiment) = Except.error e)
    (hb : fallback (actionPromptFormat notes sentiment) = Except.error e2) :
    afterSentiment primary fallback notes sentiment calls =
      ({ callerNotes := notes
         sentimentLabel := sentiment
         reason := "Sentiment identified via Groq LLM"
         nextActionItems := "❌ Both LLMs failed for action generation: " ++ e2 },
       calls ++ [⟨Which.primary, actionPromptFormat notes sentiment⟩,
                 ⟨Which.fallback, actionPromptFormat notes sentiment⟩]) := by
  simp [afterSentiment, h, ha, hb]

/-- `classify_and_generate` when the primary backend answers the sentiment
prompt (`main.py` line 102). -/
theorem classify_ok_primary (primary fallback : Backend) (notes c : String)
    (hp : primary (sentimentPromptFormat notes) = Except.ok c) :
    classify_and_generate primary fallback notes =
      Except.ok (afterSentiment primary fallback notes (pyStrip c)
        [⟨Which.primary, sentimentPromptFormat notes⟩]) := by
  simp [classify_and_generate, hp]

/-- `classify_and_generate` when the primary fails and the fallback answers
the sentiment prompt (`main.py` lines 103-106). -/
theorem classify_ok_fallback (primary fallback : Backend) (notes e c : String)
    (hp : primary (sentimentPromptFormat notes) = Except.error e)
    (hf : fallback (sentimentPromptFormat notes) = Except.ok c) :
    classify_and_generate primary fallback notes =
      Except.ok (afterSentiment primary fallback notes (pyStrip c)
        [⟨Which.primary, sentimentPromptFormat notes⟩,
         ⟨Which.fallback, sentimentPromptFormat notes⟩]) := by
  simp [classify_and_generate, hp, hf]

/-- `classify_and_generate` when both backends fail on the sentiment prompt
(`main.py` lines 107-113). -/
theorem classify_bothfail (primary fallback : Backend) (notes e e2 : String)
    (hp : primary (sentimentPromptFormat notes) = Except.error e)
    (hf : fallback (sentimentPromptFormat notes) = Except.error e2) :
    classify_and_generate primary fallback notes =
      Except.ok
        ({ callerNotes := notes
           sentimentLabel := "Unknown"
           reason := "❌ Both LLMs failed for sentiment: " ++ e2
           nextActionItems := "❌ Skipped due to classification error" },
         [⟨Which.primary, sentimentPromptFormat notes⟩,
          ⟨Which.fallback, sentimentPromptFormat notes⟩]) := by
  simp [classify_and_generate, hp, hf]

/-- Whatever the backends do, the record built by `afterSentiment` carries
the input notes in its "Caller Notes" field. -/
theorem afterSentiment_fst_callerNotes (primary fallback : Backend)
    (notes sentiment : String) (calls : List CallRecord) :
    ((afterSentiment primary fallback notes sentiment calls).1).callerNotes = notes := by
  unfold afterSentiment
  split
  · rfl
  · rfl

/-- Whatever the backends do, the record built by `afterSentiment` carries
the classified sentiment in its "Sentiment Label" field. -/
theorem afterSentiment_fst_sentimentLabel (primary fallback : Backend)
    (notes sentiment : String) (calls : List CallRecord) :
    ((afterSentiment primary fallback notes sentiment calls).1).sentimentLabel =
      sentiment := by
  unfold afterSentiment
  split
  · rfl
  · rfl

/-! ## Claims -/

/-- C1: for every non-empty notes string, `classify_and_generate` never
raises, whatever each backend invocation does: it always returns a
well-formed `EnrichmentResult` carrying all four fields "Caller Notes",
"Sentiment Label", "Reason" and "Next Action Items". -/
theorem classify_never_raises (primary fallback : Backend) (notes : String)
    (_h : notes ≠ "") :
    ∃ cn sl re na tr,
      classify_and_generate primary fallback notes =
        Except.ok ({ callerNotes := cn, sentimentLabel := sl, reason := re,
                     nextActionItems := na }, tr) := by
  rcases hp : primary (sentimentPromptFormat notes) with e | c
  · rcases hf : fallback (sentimentPromptFormat notes) with e2 | c
    · exact ⟨_, _, _, _, _, classify_bothfail primary fallback notes e e2 hp hf⟩
    · exact ⟨_, _, _, _, _, classify_ok_fallback primary fallback notes e c hp hf⟩
  · exact ⟨_, _, _, _, _, classify_ok_primary primary fallback notes c hp⟩

/-- C1 witness: concrete run with a healthy primary and a failing fallback
on the non-empty notes "hi". -/
theorem classify_never_raises_witness :
    ("hi" : String) ≠ "" ∧
    ∃ cn sl re na tr,
      classify_and_generate (constBackend "Positive") (failBackend "down") "hi" =
        Except.ok ({ callerNotes := cn, sentimentLabel := sl, reason := re,
                     nextActionItems := na }, tr) :=
  ⟨by decide,
   classify_never_raises (constBackend "Positive") (failBackend "down") "hi" (by decide)⟩

/-- C10: in every terminal outcome of the engine — classification failed,
negative short-circuit, or action-stage result — the returned record's
"Caller Notes" field is the input notes string, unchanged. -/
theorem result_preserves_caller_notes (primary fallback : Backend) (notes : String)
    (r : EnrichmentResult) (tr : List CallRecord)
    (h : classify_and_generate primary fallback notes = Except.ok (r, tr)) :
    r.callerNotes = notes := by
  rcases hp : primary (sentimentPromptFormat notes) with e | c
  · rcases hf : fallback (sentimentPromptFormat notes) with e2 | c
    · rw [classify_bothfail primary fallback notes e e2 hp hf] at h
      injection h with h3
      injection h3 with h4 h5
      rw [← h4]
    · rw [classify_ok_fallback primary fallback notes e c hp hf] at h
      injection h with h3
      have h4 : (afterSentiment primary fallback notes (pyStrip c)
          [⟨Which.primary, sentimentPromptFormat notes⟩,
           ⟨Which.fallback, sentimentPromptFormat notes⟩]).1 = r :=
        congrArg Prod.fst h3
      rw [← h4]
      exact afterSentiment_fst_callerNotes primary fallback notes (pyStrip c) _
  · rw [classify_ok_primary primary fallback notes c hp] at h
    injection h with h3
    have h4 : (afterSentiment primary fallback notes (pyStrip c)
        [⟨Which.primary, sentimentPromptFormat notes⟩]).1 = r :=
      congrArg Prod.fst h3
    rw [← h4]
    exact afterSentiment_fst_callerNotes primary fallback notes (pyStrip c) _

/-- C10 witness: concrete run on the notes "hi"; the engine's result carries
"hi" as its "Caller Notes" field. -/
theorem result_preserves_caller_notes_witness :
    classify_and_generate (constBackend "Positive") (failBackend "down") "hi" =
      Except.ok ({ callerNotes := "hi", sentimentLabel := "Positive",
                   reason := "Sentiment identified via Groq LLM",
                   nextActionItems := "Positive" },
        [⟨Which.primary, sentimentPromptFormat "hi"⟩,
         ⟨Which.primary, actionPromptFormat "hi" "Positive"⟩]) ∧
    EnrichmentResult.callerNotes
      { callerNotes := "hi", sentimentLabel := "Positive",
        reason := "Sentiment identified via Groq LLM",
        nextActionItems := "Positive" } = "hi" :=
  ⟨rfl, result_preserves_caller_notes (constBackend "Positive") (failBackend "down")
    "hi" _ _ rfl⟩

/-- C2 counterexample: with both backends failing ("boom", then "bust") on
the notes "hi", the engine's Next Action Items is the string
"❌ Skipped due to classification error", which is not the exact string
"skipped due to classification error" asserted by the claim. -/
theorem chain_failure_terminal_cex :
    (classify_and_generate (failBackend "boom") (failBackend "bust") "hi").toOption.map
        (fun rc => rc.1.nextActionItems) =
      some "❌ Skipped due to classification error" ∧
    ("❌ Skipped due to classification error" : String) ≠
      "skipped due to classification error" :=
  ⟨rfl, by decide⟩

/-- C2 amended: when both backends fail on the classification prompt, the
engine returns a terminal result with Sentiment Label exactly "Unknown" and
Next Action Items exactly "❌ Skipped due to classification error", with
Reason describing the chain failure (the fallback's error appended to
"❌ Both LLMs failed for sentiment: "), and the action-generation stage is
never invoked: the trace holds zero action-prompt calls. -/
theorem chain_failure_terminal (primary fallback : Backend) (notes e e2 : String)
    (hp : primary (sentimentPromptFormat notes) = Except.error e)
    (hf : fallback (sentimentPromptFormat notes) = Except.error e2) :
    ∃ tr, classify_and_generate primary fallback notes =
        Except.ok ({ callerNotes := notes, sentimentLabel := "Unknown",
                     reason := "❌ Both LLMs failed for sentiment: " ++ e2,
                     nextActionItems := "❌ Skipped due to classification error" }, tr) ∧
      actionCallCount tr = 0 := by
  refine ⟨_, classify_bothfail primary fallback notes e e2 hp hf, ?_⟩
  simp [actionCallCount, isActionCall_sentiment]

/-- C2 witness: both backends down, concretely. -/
theorem chain_failure_terminal_witness :
    failBackend "boom" (sentimentPromptFormat "hi") = Except.error "boom" ∧
    failBackend "bust" (sentimentPromptFormat "hi") = Except.error "bust" ∧
    ∃ tr, classify_and_generate (failBackend "boom") (failBackend "bust") "hi" =
        Except.ok ({ callerNotes := "hi", sentimentLabel := "Unknown",
                     reason := "❌ Both LLMs failed for sentiment: bust",
                     nextActionItems := "❌ Skipped due to classification error" }, tr) ∧
      actionCallCount tr = 0 :=
  ⟨rfl, rfl,
   chain_failure_terminal (failBackend "boom") (failBackend "bust") "hi" "boom" "bust" rfl rfl⟩

/-- C3 counterexample: with the classifier answering "Negative: dismissive"
on the notes "hi", the engine's Reason is "Negative sentiment detected" and
its Next Action Items is "❌ No action recommended due to negative
sentiment.", neither of which is the exact string asserted by the claim. -/
theorem negative_short_circuit_cex :
    (classify_and_generate (constBackend "Negative: dismissive") (failBackend "down")
          "hi").toOption.map (fun rc => (rc.1.reason, rc.1.nextActionItems)) =
      some ("Negative sentiment detected",
            "❌ No action recommended due to negative sentiment.") ∧
    ("Negative sentiment detected" : String) ≠ "negative sentiment detected" ∧
    ("❌ No action recommended due to negative sentiment." : String) ≠
      "no action recommended due to negative sentiment" :=
  ⟨rfl, by decide, by decide⟩

/-- C3 amended: whenever the classification output (from the primary, or
from the fallback after a primary failure) trims to text that
case-insensitively starts with "negative", the engine short-circuits: it
returns Reason exactly "Negative sentiment detected" and Next Action Items
exactly "❌ No action recommended due to negative sentiment.", and the
action-generation stage is never invoked (zero action-prompt calls). -/
theorem negative_short_circuit (primary fallback : Backend) (notes c : String)
    (hneg : pyStartsWith (pyLower (pyStrip c)) "negative" = true)
    (hc : primary (sentimentPromptFormat notes) = Except.ok c ∨
          (∃ e, primary (sentimentPromptFormat notes) = Except.error e) ∧
            fallback (sentimentPromptFormat notes) = Except.ok c) :
    ∃ tr, classify_and_generate primary fallback notes =
        Except.ok ({ callerNotes := notes, sentimentLabel := pyStrip c,
                     reason := "Negative sentiment detected",
                     nextActionItems :=
                       "❌ No action recommended due to negative sentiment." }, tr) ∧
      actionCallCount tr = 0 := by
  rcases hc with hp | ⟨⟨e, hp⟩, hf⟩
  · refine ⟨[⟨Which.primary, sentimentPromptFormat notes⟩], ?_, ?_⟩
    · rw [classify_ok_primary primary fallback notes c hp,
        afterSentiment_neg primary fallback notes (pyStrip c) _ hneg]
    · simp [actionCallCount, isActionCall_sentiment]
  · refine ⟨[⟨Which.primary, sentimentPromptFormat notes⟩,
      ⟨Which.fallback, sentimentPromptFormat notes⟩], ?_, ?_⟩
    · rw [classify_ok_fallback primary fallback notes e c hp hf,
        afterSentiment_neg primary fallback notes (pyStrip c) _ hneg]
    · simp [actionCallCount, isActionCall_sentiment]

/-- C3 witness: the classifier answers "NEGATIVE - tone was curt" (fallback
path), concretely. -/
theorem negative_short_circuit_witness :
    pyStartsWith (pyLower (pyStrip " NEGATIVE - tone was curt ")) "negative" = true ∧
    ∃ tr, classify_and_generate (failBackend "boom")
          (constBackend " NEGATIVE - tone was curt ") "hi" =
        Except.ok ({ callerNotes := "hi",
                     sentimentLabel := pyStrip " NEGATIVE - tone was curt ",
                     reason := "Negative sentiment detected",
                     nextActionItems :=
                       "❌ No action recommended due to negative sentiment." }, tr) ∧
      actionCallCount tr = 0 :=
  ⟨rfl,
   negative_short_circuit (failBackend "boom") (constBackend " NEGATIVE - tone was curt ")
     "hi" " NEGATIVE - tone was curt " rfl
     (Or.inr ⟨⟨"boom", rfl⟩, rfl⟩)⟩

/-- C4: when classification succeeds with a non-negative label but both
backends fail on the action prompt, the engine still returns a result:
Sentiment Label keeps the classified label, Reason still reports successful
classification ("Sentiment identified via Groq LLM"), and Next Action Items
embeds the underlying error after "❌ Both LLMs failed for action
generation: ". -/
theorem action_chain_failure_nonfatal (primary fallback : Backend)
    (notes c e e2 : String)
    (hc : primary (sentimentPromptFormat notes) = Except.ok c ∨
          (∃ d, primary (sentimentPromptFormat notes) = Except.error d) ∧
            fallback (sentimentPromptFormat notes) = Except.ok c)
    (hneg : pyStartsWith (pyLower (pyStrip c)) "negative" = false)
    (ha : primary (actionPromptFormat notes (pyStrip c)) = Except.error e)
    (hb : fallback (actionPromptFormat notes (pyStrip c)) = Except.error e2) :
    ∃ tr, classify_and_generate primary fallback notes =
        Except.ok ({ callerNotes := notes, sentimentLabel := pyStrip c,
                     reason := "Sentiment identified via Groq LLM",
                     nextActionItems :=
                       "❌ Both LLMs failed for action generation: " ++ e2 }, tr) := by
  rcases hc with hp | ⟨⟨d, hp⟩, hf⟩
  · exact ⟨_, by
      rw [classify_ok_primary primary fallback notes c hp,
        afterSentiment_nonneg_bothfail primary fallback notes (pyStrip c) e e2 _
          hneg ha hb]⟩
  · exact ⟨_, by
      rw [classify_ok_fallback primary fallback notes d c hp hf,
        afterSentiment_nonneg_bothfail primary fallback notes (pyStrip c) e e2 _
          hneg ha hb]⟩

/-- C4 witness: a backend pair that classifies "Positive" but fails on the
action prompt, concretely. -/
theorem action_chain_failure_nonfatal_witness :
    classifyOnlyBackend "Positive" "gen-down" (sentimentPromptFormat "hi") =
      Except.ok "Positive" ∧
    classifyOnlyBackend "Positive" "gen-down" (actionPromptFormat "hi" "Positive") =
      Except.error "gen-down" ∧
    ∃ tr, classify_and_generate (classifyOnlyBackend "Positive" "gen-down")
          (failBackend "also-down") "hi" =
        Except.ok ({ callerNotes := "hi", sentimentLabel := "Positive",
                     reason := "Sentiment identified via Groq LLM",
                     nextActionItems :=
                       "❌ Both LLMs failed for action generation: also-down" }, tr) :=
  ⟨rfl, rfl,
   action_chain_failure_nonfatal (classifyOnlyBackend "Positive" "gen-down")
     (failBackend "also-down") "hi" "Positive" "gen-down" "also-down"
     (Or.inl rfl) rfl rfl rfl⟩

/-- The action stage appends only action-prompt calls to the trace: the
sentiment-prompt calls of `afterSentiment`'s trace are exactly those it was
handed. -/
theorem afterSentiment_calls_filter (primary fallback : Backend)
    (notes sentiment : String) (calls : List CallRecord) :
    ((afterSentiment primary fallback notes sentiment calls).2).filter isSentimentCall =
      calls.filter isSentimentCall := by
  unfold afterSentiment
  split
  · rfl
  · rcases ha : primary (actionPromptFormat notes sentiment) with e | a
    · rcases hb : fallback (actionPromptFormat notes sentiment) with e2 | b
      · simp [ha, hb, isSentimentCall_action]
      · simp [ha, hb, isSentimentCall_action]
    · simp [ha, isSentimentCall_action]

/-- No rendered sentiment prompt ever equals a rendered action prompt: the
two templates differ already in their second character. -/
theorem sentiment_ne_action (n n2 s : String) :
    sentimentPromptFormat n ≠ actionPromptFormat n2 s := by
  intro h
  have h2 : (sentimentPromptFormat n).data.take 2 =
      (actionPromptFormat n2 s).data.take 2 := by rw [h]
  have e1 : (sentimentPromptFormat n).data.take 2 = ['\n', 'C'] := rfl
  have e2 : (actionPromptFormat n2 s).data.take 2 = ['\n', 'Y'] := rfl
  rw [e1, e2] at h2
  exact absurd h2 (by decide)

/-- The trace of the action stage when the primary answers the action
prompt: one primary call appended. -/
theorem afterSentiment_snd_nonneg_ok (primary fallback : Backend)
    (notes sentiment a : String) (calls : List CallRecord)
    (h : pyStartsWith (pyLower sentiment) "negative" = false)
    (ha : primary (actionPromptFormat notes sentiment) = Except.ok a) :
    (afterSentiment primary fallback notes sentiment calls).2 =
      calls ++ [⟨Which.primary, actionPromptFormat notes sentiment⟩] := by
  rw [afterSentiment_nonneg_primary primary fallback notes sentiment a calls h ha]

/-- The trace of the action stage when the primary fails on the action
prompt: one primary call then one fallback call appended, whether or not
the fallback succeeds. -/
theorem afterSentiment_snd_nonneg_err (primary fallback : Backend)
    (notes sentiment e : String) (calls : List CallRecord)
    (h : pyStartsWith (pyLower sentiment) "negative" = false)
    (ha : primary (actionPromptFormat notes sentiment) = Except.error e) :
    (afterSentiment primary fallback notes sentiment calls).2 =
      calls ++ [⟨Which.primary, actionPromptFormat notes sentiment⟩,
                ⟨Which.fallback, actionPromptFormat notes sentiment⟩] := by
  rcases hb : fallback (actionPromptFormat notes sentiment) with e2 | b
  · rw [afterSentiment_nonneg_bothfail primary fallback notes sentiment e e2 calls
      h ha hb]
  · rw [afterSentiment_nonneg_fallback primary fallback notes sentiment e b calls
      h ha hb]

/-- Per-prompt chain shape for a trace holding only the classification
attempts: for any prompt `q`, the calls on `q` are none, one successful
primary attempt, or a failed primary attempt followed by the fallback. -/
theorem trichotomy_sent_only (primary _fallback : Backend) (sp : String)
    (ts : List CallRecord)
    (hts : ((∃ t, primary sp = Except.ok t) ∧ ts = [⟨Which.primary, sp⟩]) ∨
           ((∃ e, primary sp = Except.error e) ∧
             ts = [⟨Which.primary, sp⟩, ⟨Which.fallback, sp⟩]))
    (q : String) :
    ts.filter (fun c => c.prompt = q) = [] ∨
      ((∃ t, primary q = Except.ok t) ∧
        ts.filter (fun c => c.prompt = q) = [⟨Which.primary, q⟩]) ∨
      ((∃ e, primary q = Except.error e) ∧
        ts.filter (fun c => c.prompt = q) =
          [⟨Which.primary, q⟩, ⟨Which.fallback, q⟩]) := by
  by_cases hq : sp = q
  · subst hq
    rcases hts with ⟨⟨t, ht⟩, rfl⟩ | ⟨⟨e, he⟩, rfl⟩
    · right; left
      exact ⟨⟨t, ht⟩, by simp⟩
    · right; right
      exact ⟨⟨e, he⟩, by simp⟩
  · left
    rcases hts with ⟨_, rfl⟩ | ⟨_, rfl⟩ <;> simp [hq]

/-- Per-prompt chain shape for a trace of classification attempts followed
by action attempts on a distinct prompt. -/
theorem trichotomy_sent_act (primary _fallback : Backend) (sp ap : String)
    (hne : sp ≠ ap) (ts ta : List CallRecord)
    (hts : ((∃ t, primary sp = Except.ok t) ∧ ts = [⟨Which.primary, sp⟩]) ∨
           ((∃ e, primary sp = Except.error e) ∧
             ts = [⟨Which.primary, sp⟩, ⟨Which.fallback, sp⟩]))
    (hta : ((∃ u, primary ap = Except.ok u) ∧ ta = [⟨Which.primary, ap⟩]) ∨
           ((∃ e, primary ap = Except.error e) ∧
             ta = [⟨Which.primary, ap⟩, ⟨Which.fallback, ap⟩]))
    (q : String) :
    (ts ++ ta).filter (fun c => c.prompt = q) = [] ∨
      ((∃ t, primary q = Except.ok t) ∧
        (ts ++ ta).filter (fun c => c.prompt = q) = [⟨Which.primary, q⟩]) ∨
      ((∃ e, primary q = Except.error e) ∧
        (ts ++ ta).filter (fun c => c.prompt = q) =
          [⟨Which.primary, q⟩, ⟨Which.fallback, q⟩]) := by
  rw [List.filter_append]
  by_cases hq1 : sp = q
  · subst hq1
    have hne2 : ¬ap = sp := fun h => hne h.symm
    have hta0 : ta.filter (fun c => c.prompt = sp) = [] := by
      rcases hta with ⟨_, rfl⟩ | ⟨_, rfl⟩ <;> simp [hne2]
    rw [hta0, List.append_nil]
    rcases hts with ⟨⟨t, ht⟩, rfl⟩ | ⟨⟨e, he⟩, rfl⟩
    · right; left
      exact ⟨⟨t, ht⟩, by simp⟩
    · right; right
      exact ⟨⟨e, he⟩, by simp⟩
  · have hts0 : ts.filter (fun c => c.prompt = q) = [] := by
      rcases hts with ⟨_, rfl⟩ | ⟨_, rfl⟩ <;> simp [hq1]
    rw [hts0, List.nil_append]
    by_cases hq2 : ap = q
    · subst hq2
      rcases hta with ⟨⟨u, hu⟩, rfl⟩ | ⟨⟨e, he⟩, rfl⟩
      · right; left
        exact ⟨⟨u, hu⟩, by simp⟩
      · right; right
        exact ⟨⟨e, he⟩, by simp⟩
    · left
      rcases hta with ⟨_, rfl⟩ | ⟨_, rfl⟩ <;> simp [hq2]

/-- In any run of the engine, the per-prompt chain shape holds for every
prompt `q`: the calls on `q` in the trace are none at all, exactly one
primary attempt (which succeeded), or exactly one failed primary attempt
followed by one fallback attempt. -/
theorem classify_trace_trichotomy (primary fallback : Backend) (notes : String)
    (r : EnrichmentResult) (tr : List CallRecord)
    (h : classify_and_generate primary fallback notes = Except.ok (r, tr))
    (q : String) :
    tr.filter (fun c => c.prompt = q) = [] ∨
      ((∃ t, primary q = Except.ok t) ∧
        tr.filter (fun c => c.prompt = q) = [⟨Which.primary, q⟩]) ∨
      ((∃ e, primary q = Except.error e) ∧
        tr.filter (fun c => c.prompt = q) =
          [⟨Which.primary, q⟩, ⟨Which.fallback, q⟩]) := by
  rcases hp : primary (sentimentPromptFormat notes) with e | c
  · rcases hf : fallback (sentimentPromptFormat notes) with e2 | c
    · rw [classify_bothfail primary fallback notes e e2 hp hf] at h
      injection h with h1
      have h2 : ([⟨Which.primary, sentimentPromptFormat notes⟩,
          ⟨Which.fallback, sentimentPromptFormat notes⟩] : List CallRecord) = tr :=
        congrArg Prod.snd h1
      subst h2
      exact trichotomy_sent_only primary fallback (sentimentPromptFormat notes) _
        (Or.inr ⟨⟨e, hp⟩, rfl⟩) q
    · rw [classify_ok_fallback primary fallback notes e c hp hf] at h
      injection h with h1
      have h2 : (afterSentiment primary fallback notes (pyStrip c)
          [⟨Which.primary, sentimentPromptFormat notes⟩,
           ⟨Which.fallback, sentimentPromptFormat notes⟩]).2 = tr :=
        congrArg Prod.snd h1
      subst h2
      by_cases hneg : pyStartsWith (pyLower (pyStrip c)) "negative" = true
      · rw [afterSentiment_neg primary fallback notes (pyStrip c) _ hneg]
        exact trichotomy_sent_only primary fallback (sentimentPromptFormat notes) _
          (Or.inr ⟨⟨e, hp⟩, rfl⟩) q
      · have hneg2 : pyStartsWith (pyLower (pyStrip c)) "negative" = false := by
          simpa using hneg
        rcases ha : primary (actionPromptFormat notes (pyStrip c)) with e3 | a
        · rw [afterSentiment_snd_nonneg_err primary fallback notes (pyStrip c) e3 _
            hneg2 ha]
          exact trichotomy_sent_act primary fallback (sentimentPromptFormat notes)
            (actionPromptFormat notes (pyStrip c))
            (sentiment_ne_action notes notes (pyStrip c)) _ _
            (Or.inr ⟨⟨e, hp⟩, rfl⟩) (Or.inr ⟨⟨e3, ha⟩, rfl⟩) q
        · rw [afterSentiment_snd_nonneg_ok primary fallback notes (pyStrip c) a _
            hneg2 ha]
          exact trichotomy_sent_act primary fallback (sentimentPromptFormat notes)
            (actionPromptFormat notes (pyStrip c))
            (sentiment_ne_action notes notes (pyStrip c)) _ _
            (Or.inr ⟨⟨e, hp⟩, rfl⟩) (Or.inl ⟨⟨a, ha⟩, rfl⟩) q
  · rw [classify_ok_primary primary fallback notes c hp] at h
    injection h with h1
    have h2 : (afterSentiment primary fallback notes (pyStrip c)
        [⟨Which.primary, sentimentPromptFormat notes⟩]).2 = tr :=
      congrArg Prod.snd h1
    subst h2
    by_cases hneg : pyStartsWith (pyLower (pyStrip c)) "negative" = true
    · rw [afterSentiment_neg primary fallback notes (pyStrip c) _ hneg]
      exact trichotomy_sent_only primary fallback (sentimentPromptFormat notes) _
        (Or.inl ⟨⟨c, hp⟩, rfl⟩) q
    · have hneg2 : pyStartsWith (pyLower (pyStrip c)) "negative" = false := by
        simpa using hneg
      rcases ha : primary (actionPromptFormat notes (pyStrip c)) with e3 | a
      · rw [afterSentiment_snd_nonneg_err primary fallback notes (pyStrip c) e3 _
          hneg2 ha]
        exact trichotomy_sent_act primary fallback (sentimentPromptFormat notes)
          (actionPromptFormat notes (pyStrip c))
          (sentiment_ne_action notes notes (pyStrip c)) _ _
          (Or.inl ⟨⟨c, hp⟩, rfl⟩) (Or.inr ⟨⟨e3, ha⟩, rfl⟩) q
      · rw [afterSentiment_snd_nonneg_ok primary fallback notes (pyStrip c) a _
          hneg2 ha]
        exact trichotomy_sent_act primary fallback (sentimentPromptFormat notes)
          (actionPromptFormat notes (pyStrip c))
          (sentiment_ne_action notes notes (pyStrip c)) _ _
          (Or.inl ⟨⟨c, hp⟩, rfl⟩) (Or.inl ⟨⟨a, ha⟩, rfl⟩) q

/-- C5: for every prompt the chain attempts the primary exactly once before
the fallback, makes at most one attempt per backend, and short-circuits on
first success: in every run, the trace's calls on any prompt `q` are
either none, exactly one successful primary attempt, or one failed primary
attempt followed by one fallback attempt (so on a both-fail prompt each
backend is attempted exactly once, primary first).  In particular, if the
primary answers the classification prompt its trimmed output is the label
and the fallback is never attempted on that prompt; if the primary fails
and the fallback answers, the returned Sentiment Label is the fallback's
trimmed output and the sentiment-prompt calls are exactly one primary call
followed by one fallback call. -/
theorem failover_ordering (primary fallback : Backend) (notes : String) :
    ∃ r tr, classify_and_generate primary fallback notes = Except.ok (r, tr) ∧
      (∀ q, tr.filter (fun c => c.prompt = q) = [] ∨
        ((∃ t, primary q = Except.ok t) ∧
          tr.filter (fun c => c.prompt = q) = [⟨Which.primary, q⟩]) ∨
        ((∃ e, primary q = Except.error e) ∧
          tr.filter (fun c => c.prompt = q) =
            [⟨Which.primary, q⟩, ⟨Which.fallback, q⟩])) ∧
      (∀ c, primary (sentimentPromptFormat notes) = Except.ok c →
        r.sentimentLabel = pyStrip c ∧
        tr.filter isSentimentCall =
          [⟨Which.primary, sentimentPromptFormat notes⟩]) ∧
      (∀ e c, primary (sentimentPromptFormat notes) = Except.error e →
        fallback (sentimentPromptFormat notes) = Except.ok c →
        r.sentimentLabel = pyStrip c ∧
        tr.filter isSentimentCall =
          [⟨Which.primary, sentimentPromptFormat notes⟩,
           ⟨Which.fallback, sentimentPromptFormat notes⟩]) := by
  rcases hp : primary (sentimentPromptFormat notes) with e | c
  · rcases hf : fallback (sentimentPromptFormat notes) with e2 | c
    · refine ⟨_, _, classify_bothfail primary fallback notes e e2 hp hf, ?_, ?_, ?_⟩
      · exact fun q => classify_trace_trichotomy primary fallback notes _ _
          (classify_bothfail primary fallback notes e e2 hp hf) q
      · intro c0 hc0
        exact absurd hc0 (by simp)
      · intro e0 c0 _he0 hc0
        exact absurd hc0 (by simp)
    · refine ⟨(afterSentiment primary fallback notes (pyStrip c)
          [⟨Which.primary, sentimentPromptFormat notes⟩,
           ⟨Which.fallback, sentimentPromptFormat notes⟩]).1,
        (afterSentiment primary fallback notes (pyStrip c)
          [⟨Which.primary, sentimentPromptFormat notes⟩,
           ⟨Which.fallback, sentimentPromptFormat notes⟩]).2, ?_, ?_, ?_, ?_⟩
      · rw [classify_ok_fallback primary fallback notes e c hp hf]
      · exact fun q => classify_trace_trichotomy primary fallback notes _ _
          (by rw [classify_ok_fallback primary fallback notes e c hp hf]) q
      · intro c0 hc0
        exact absurd hc0 (by simp)
      · intro e0 c0 _he0 hc0
        injection hc0 with hcc
        subst hcc
        refine ⟨afterSentiment_fst_sentimentLabel primary fallback notes (pyStrip c) _, ?_⟩
        rw [afterSentiment_calls_filter]
        simp [isSentimentCall_sentiment]
  · refine ⟨(afterSentiment primary fallback notes (pyStrip c)
        [⟨Which.primary, sentimentPromptFormat notes⟩]).1,
      (afterSentiment primary fallback notes (pyStrip c)
        [⟨Which.primary, sentimentPromptFormat notes⟩]).2, ?_, ?_, ?_, ?_⟩
    · rw [classify_ok_primary primary fallback notes c hp]
    · exact fun q => classify_trace_trichotomy primary fallback notes _ _
        (by rw [classify_ok_primary primary fallback notes c hp]) q
    · intro c0 hc0
      injection hc0 with hcc
      subst hcc
      refine ⟨afterSentiment_fst_sentimentLabel primary fallback notes (pyStrip c) _, ?_⟩
      rw [afterSentiment_calls_filter]
      simp [isSentimentCall_sentiment]
    · intro e0 c0 he0 _hc0
      exact absurd he0 (by simp)

/-- C5 witness: primary down, fallback answering " Neutral " for
classification; the label is the fallback's trimmed output "Neutral" and
the sentiment-prompt calls are primary then fallback, once each. -/
theorem failover_ordering_witness :
    ∃ r tr, classify_and_generate (failBackend "boom") (constBackend " Neutral ") "hi" =
        Except.ok (r, tr) ∧
      r.sentimentLabel = pyStrip " Neutral " ∧
      tr.filter isSentimentCall =
        [⟨Which.primary, sentimentPromptFormat "hi"⟩,
         ⟨Which.fallback, sentimentPromptFormat "hi"⟩] :=
  match failover_ordering (failBackend "boom") (constBackend " Neutral ") "hi" with
  | ⟨r, tr, heq, _htri, _hok, herr⟩ =>
    ⟨r, tr, heq, (herr "boom" " Neutral " rfl rfl).1, (herr "boom" " Neutral " rfl rfl).2⟩

/-- When the sentiment is not negative, the trace of `afterSentiment`
contains a primary-backend call on the rendered action prompt. -/
theorem afterSentiment_action_mem (primary fallback : Backend)
    (notes sentiment : String) (calls : List CallRecord)
    (hneg : pyStartsWith (pyLower sentiment) "negative" = false) :
    (⟨Which.primary, actionPromptFormat notes sentiment⟩ : CallRecord) ∈
      (afterSentiment primary fallback notes sentiment calls).2 := by
  rcases ha : primary (actionPromptFormat notes sentiment) with e | a
  · rcases hb : fallback (actionPromptFormat notes sentiment) with e2 | b
    · rw [afterSentiment_nonneg_bothfail primary fallback notes sentiment e e2 calls
        hneg ha hb]
      simp
    · rw [afterSentiment_nonneg_fallback primary fallback notes sentiment e b calls
        hneg ha hb]
      simp
  · rw [afterSentiment_nonneg_primary primary fallback notes sentiment a calls hneg ha]
    simp

/-- C6 counterexample: with healthy backends classifying "Positive", the
engine's Reason is "Sentiment identified via Groq LLM", which is not the
exact string "sentiment identified via generation backend" asserted by the
claim. -/
theorem action_success_verbatim_cex :
    (classify_and_generate (stageBackend "Positive" "  Send a follow-up email  ")
          (failBackend "down") "hi").toOption.map (fun rc => rc.1.reason) =
      some "Sentiment identified via Groq LLM" ∧
    ("Sentiment identified via Groq LLM" : String) ≠
      "sentiment identified via generation backend" :=
  ⟨rfl, by decide⟩

/-- C6 amended: when classification succeeds with a non-negative label and
the action chain succeeds, the returned Next Action Items is the action
backend's output text with leading/trailing whitespace trimmed, verbatim,
and Reason is exactly "Sentiment identified via Groq LLM". -/
theorem action_success_verbatim (primary fallback : Backend) (notes c a : String)
    (hc : primary (sentimentPromptFormat notes) = Except.ok c ∨
          (∃ d, primary (sentimentPromptFormat notes) = Except.error d) ∧
            fallback (sentimentPromptFormat notes) = Except.ok c)
    (hneg : pyStartsWith (pyLower (pyStrip c)) "negative" = false)
    (ha : primary (actionPromptFormat notes (pyStrip c)) = Except.ok a ∨
          (∃ d, primary (actionPromptFormat notes (pyStrip c)) = Except.error d) ∧
            fallback (actionPromptFormat notes (pyStrip c)) = Except.ok a) :
    ∃ tr, classify_and_generate primary fallback notes =
        Except.ok ({ callerNotes := notes, sentimentLabel := pyStrip c,
                     reason := "Sentiment identified via Groq LLM",
                     nextActionItems := pyStrip a }, tr) := by
  rcases hc with hp | ⟨⟨d, hp⟩, hf⟩ <;>
    rcases ha with h1 | ⟨⟨d2, h1⟩, h2⟩
  · exact ⟨_, by
      rw [classify_ok_primary primary fallback notes c hp,
        afterSentiment_nonneg_primary primary fallback notes (pyStrip c) a _ hneg h1]⟩
  · exact ⟨_, by
      rw [classify_ok_primary primary fallback notes c hp,
        afterSentiment_nonneg_fallback primary fallback notes (pyStrip c) d2 a _
          hneg h1 h2]⟩
  · exact ⟨_, by
      rw [classify_ok_fallback primary fallback notes d c hp hf,
        afterSentiment_nonneg_primary primary fallback notes (pyStrip c) a _ hneg h1]⟩
  · exact ⟨_, by
      rw [classify_ok_fallback primary fallback notes d c hp hf,
        afterSentiment_nonneg_fallback primary fallback notes (pyStrip c) d2 a _
          hneg h1 h2]⟩

/-- C6 witness: healthy primary; the action output "  Send a follow-up
email  " comes back trimmed, verbatim. -/
theorem action_success_verbatim_witness :
    stageBackend "Positive" "  Send a follow-up email  " (sentimentPromptFormat "hi") =
      Except.ok "Positive" ∧
    pyStartsWith (pyLower (pyStrip "Positive")) "negative" = false ∧
    ∃ tr, classify_and_generate (stageBackend "Positive" "  Send a follow-up email  ")
          (failBackend "down") "hi" =
        Except.ok ({ callerNotes := "hi", sentimentLabel := "Positive",
                     reason := "Sentiment identified via Groq LLM",
                     nextActionItems := "Send a follow-up email" }, tr) :=
  ⟨rfl, rfl,
   action_success_verbatim (stageBackend "Positive" "  Send a follow-up email  ")
     (failBackend "down") "hi" "Positive" "  Send a follow-up email  "
     (Or.inl rfl) rfl (Or.inl rfl)⟩

/-- C7: whenever classification succeeds and its trimmed output does not
case-insensitively start with "negative" — including ambiguous labels
matching no known sentiment word — the engine proceeds to the action stage:
the trace contains a primary-backend call on the rendered action prompt. -/
theorem nonnegative_proceeds_to_action (primary fallback : Backend) (notes c : String)
    (hc : primary (sentimentPromptFormat notes) = Except.ok c ∨
          (∃ d, primary (sentimentPromptFormat notes) = Except.error d) ∧
            fallback (sentimentPromptFormat notes) = Except.ok c)
    (hneg : pyStartsWith (pyLower (pyStrip c)) "negative" = false) :
    ∃ r tr, classify_and_generate primary fallback notes = Except.ok (r, tr) ∧
      (⟨Which.primary, actionPromptFormat notes (pyStrip c)⟩ : CallRecord) ∈ tr := by
  rcases hc with hp | ⟨⟨d, hp⟩, hf⟩
  · refine ⟨(afterSentiment primary fallback notes (pyStrip c)
        [⟨Which.primary, sentimentPromptFormat notes⟩]).1,
      (afterSentiment primary fallback notes (pyStrip c)
        [⟨Which.primary, sentimentPromptFormat notes⟩]).2, ?_, ?_⟩
    · rw [classify_ok_primary primary fallback notes c hp]
    · exact afterSentiment_action_mem primary fallback notes (pyStrip c) _ hneg
  · refine ⟨(afterSentiment primary fallback notes (pyStrip c)
        [⟨Which.primary, sentimentPromptFormat notes⟩,
         ⟨Which.fallback, sentimentPromptFormat notes⟩]).1,
      (afterSentiment primary fallback notes (pyStrip c)
        [⟨Which.primary, sentimentPromptFormat notes⟩,
         ⟨Which.fallback, sentimentPromptFormat notes⟩]).2, ?_, ?_⟩
    · rw [classify_ok_fallback primary fallback notes d c hp hf]
    · exact afterSentiment_action_mem primary fallback notes (pyStrip c) _ hneg

/-- C7 witness: an ambiguous label "Hard to say, really" matching no known
sentiment word still drives the engine into the action stage. -/
theorem nonnegative_proceeds_to_action_witness :
    pyStartsWith (pyLower (pyStrip "Hard to say, really")) "negative" = false ∧
    ∃ r tr, classify_and_generate (stageBackend "Hard to say, really" "do stuff")
          (failBackend "down") "hi" = Except.ok (r, tr) ∧
      (⟨Which.primary, actionPromptFormat "hi" (pyStrip "Hard to say, really")⟩ :
        CallRecord) ∈ tr :=
  ⟨rfl,
   nonnegative_proceeds_to_action (stageBackend "Hard to say, really" "do stuff")
     (failBackend "down") "hi" "Hard to say, really" (Or.inl rfl) rfl⟩

/-- Replacing the value under `k` finds exactly the replaced binding when a
binding of `k` exists. -/
theorem find?_replace_self (p : Payload) (k : String) (v : JVal)
    (h : p.any (fun kv => kv.1 = k) = true) :
    (p.map (fun kv => if kv.1 = k then (k, v) else kv)).find?
      (fun kv => kv.1 = k) = some (k, v) := by
  induction p with
  | nil => simp at h
  | cons hd tl ih =>
    rw [List.map_cons]
    by_cases hk : hd.1 = k
    · rw [if_pos hk]
      exact List.find?_cons_of_pos _ (by simp)
    · rw [if_neg hk, List.find?_cons_of_neg _ (by simp [hk])]
      apply ih
      rcases List.any_eq_true.mp h with ⟨x, hx, hpx⟩
      have hxk : x.1 = k := by simpa using hpx
      rcases List.mem_cons.mp hx with h1 | h1
      · exact absurd (h1 ▸ hxk) hk
      · exact List.any_eq_true.mpr ⟨x, h1, by simpa using hxk⟩

/-- Replacing the value under `k` leaves lookups of any other key alone. -/
theorem find?_replace_ne (p : Payload) (k k2 : String) (v : JVal) (hne : k2 ≠ k) :
    (p.map (fun kv => if kv.1 = k then (k, v) else kv)).find?
        (fun kv => kv.1 = k2) =
      p.find? (fun kv => kv.1 = k2) := by
  induction p with
  | nil => rfl
  | cons hd tl ih =>
    rw [List.map_cons]
    by_cases hk : hd.1 = k
    · rw [if_pos hk,
        List.find?_cons_of_neg _ (by simp; exact Ne.symm hne),
        List.find?_cons_of_neg _ (by simp [hk]; exact Ne.symm hne)]
      exact ih
    · rw [if_neg hk]
      by_cases hk2 : hd.1 = k2
      · rw [List.find?_cons_of_pos _ (by simp [hk2]),
          List.find?_cons_of_pos _ (by simp [hk2])]
      · rw [List.find?_cons_of_neg _ (by simp [hk2]),
          List.find?_cons_of_neg _ (by simp [hk2])]
        exact ih

/-- After `payload[k] = v`, looking up `k` yields `v`. -/
theorem dictGetD_dictSet_self (p : Payload) (k : String) (v d : JVal) :
    dictGetD (dictSet p k v) k d = v := by
  unfold dictGetD dictSet
  by_cases h : p.any (fun kv => kv.1 = k) = true
  · rw [if_pos h, find?_replace_self p k v h]
  · rw [if_neg h, List.find?_append]
    have h2 : p.find? (fun kv => kv.1 = k) = none := by
      rw [List.find?_eq_none]
      intro x hx hpx
      exact h (List.any_eq_true.mpr ⟨x, hx, hpx⟩)
    rw [h2]
    simp

/-- After `payload[k] = v`, looking up any other key is unchanged. -/
theorem find?_dictSet_ne (p : Payload) (k k2 : String) (v : JVal) (hne : k2 ≠ k) :
    (dictSet p k v).find? (fun kv => kv.1 = k2) = p.find? (fun kv => kv.1 = k2) := by
  unfold dictSet
  by_cases h : p.any (fun kv => kv.1 = k) = true
  · rw [if_pos h, find?_replace_ne p k k2 v hne]
  · rw [if_neg h, List.find?_append]
    have h2 : List.find? (fun kv => kv.1 = k2) [(k, v)] = none := by
      simp
      exact Ne.symm hne
    rw [h2]
    simp

/-- Behaviour of the loop body when the `comments` field holds a string. -/
theorem processRecord_jstr (primary fallback : Backend) (payload : Payload) (s : String)
    (hg : dictGetD payload "comments" (JVal.jstr "") = JVal.jstr s) :
    processRecord primary fallback payload =
      (if pyStrip s = "" then (none, [])
       else
         match classify_and_generate primary fallback (pyStrip s) with
         | Except.ok rc => (some (dictSet payload "result" (JVal.jres rc.1)), rc.2)
         | Except.error _e => (none, [])) := by
  unfold processRecord
  rw [hg]

/-- C8: an inbound record whose `comments` field is absent, or holds a
string that is empty or whitespace-only after trimming, is skipped: the
loop publishes nothing and the enrichment engine makes no backend call. -/
theorem blank_comments_skipped (primary fallback : Backend) (payload : Payload)
    (s : String)
    (h : payload.find? (fun kv => kv.1 = "comments") = none ∨
         (dictGetD payload "comments" (JVal.jstr "") = JVal.jstr s ∧ pyStrip s = "")) :
    processRecord primary fallback payload = (none, []) := by
  rcases h with h | ⟨h, hs⟩
  · rw [processRecord_jstr primary fallback payload "" (by unfold dictGetD; rw [h])]
    rfl
  · rw [processRecord_jstr primary fallback payload s h, if_pos hs]

/-- C8 witness: a record whose `comments` field is whitespace-only yields
no published record and no backend call. -/
theorem blank_comments_skipped_witness :
    dictGetD [("comments", JVal.jstr "   "), ("user", JVal.jopaque 7)] "comments"
        (JVal.jstr "") = JVal.jstr "   " ∧
    pyStrip "   " = "" ∧
    processRecord (constBackend "Positive") (failBackend "down")
        [("comments", JVal.jstr "   "), ("user", JVal.jopaque 7)] = (none, []) :=
  ⟨rfl, rfl,
   blank_comments_skipped (constBackend "Positive") (failBackend "down")
     [("comments", JVal.jstr "   "), ("user", JVal.jopaque 7)] "   "
     (Or.inr ⟨rfl, rfl⟩)⟩

/-- C9: every published record is the inbound payload with a `result` field
added holding the engine's `EnrichmentResult`; looking up any key other
than `result` in the output gives exactly what the inbound payload held. -/
theorem publish_adds_result (primary fallback : Backend) (payload out : Payload)
    (tr : List CallRecord)
    (h : processRecord primary fallback payload = (some out, tr)) :
    ∃ notes r, classify_and_generate primary fallback notes = Except.ok (r, tr) ∧
      out = dictSet payload "result" (JVal.jres r) ∧
      dictGetD out "result" (JVal.jstr "") = JVal.jres r ∧
      ∀ k, k ≠ "result" →
        out.find? (fun kv => kv.1 = k) = payload.find? (fun kv => kv.1 = k) := by
  rcases hg : dictGetD payload "comments" (JVal.jstr "") with s | r0 | n
  · rw [processRecord_jstr primary fallback payload s hg] at h
    by_cases hs : pyStrip s = ""
    · rw [if_pos hs] at h
      simp at h
    · rw [if_neg hs] at h
      rcases hc : classify_and_generate primary fallback (pyStrip s) with err | rc
      all_goals rw [hc] at h
      · simp at h
      · injection h with h1 h2
        injection h1 with h1
        refine ⟨pyStrip s, rc.1, ?_, h1.symm, ?_, ?_⟩
        · rw [hc, ← h2]
        · rw [← h1, dictGetD_dictSet_self]
        · intro k hk
          rw [← h1]
          exact find?_dictSet_ne payload "result" k (JVal.jres rc.1) hk
  · unfold processRecord at h
    rw [hg] at h
    simp at h
  · unfold processRecord at h
    rw [hg] at h
    simp at h

/-- C9 witness: a record with an extra opaque field is republished with
that field intact and a `result` field appended. -/
theorem publish_adds_result_witness :
    processRecord (stageBackend "Positive" "Call back") (failBackend "down")
        [("comments", JVal.jstr " hello "), ("user", JVal.jopaque 7)] =
      (some [("comments", JVal.jstr " hello "), ("user", JVal.jopaque 7),
             ("result", JVal.jres
               ⟨"hello", "Positive", "Sentiment identified via Groq LLM", "Call back"⟩)],
       [⟨Which.primary, sentimentPromptFormat "hello"⟩,
        ⟨Which.primary, actionPromptFormat "hello" "Positive"⟩]) ∧
    ∃ notes r,
      classify_and_generate (stageBackend "Positive" "Call back") (failBackend "down")
          notes =
        Except.ok (r,
          [⟨Which.primary, sentimentPromptFormat "hello"⟩,
           ⟨Which.primary, actionPromptFormat "hello" "Positive"⟩]) ∧
      [("comments", JVal.jstr " hello "), ("user", JVal.jopaque 7),
       ("result", JVal.jres
         ⟨"hello", "Positive", "Sentiment identified via Groq LLM", "Call back"⟩)] =
        dictSet [("comments", JVal.jstr " hello "), ("user", JVal.jopaque 7)]
          "result" (JVal.jres r) :=
  ⟨rfl,
   match publish_adds_result (stageBackend "Positive" "Call back") (failBackend "down")
       [("comments", JVal.jstr " hello "), ("user", JVal.jopaque 7)]
       [("comments", JVal.jstr " hello "), ("user", JVal.jopaque 7),
        ("result", JVal.jres
          ⟨"hello", "Positive", "Sentiment identified via Groq LLM", "Call back"⟩)]
       [⟨Which.primary, sentimentPromptFormat "hello"⟩,
        ⟨Which.primary, actionPromptFormat "hello" "Positive"⟩] rfl with
   | ⟨n, r, h1, h2, _h3, _h4⟩ => ⟨n, r, h1, h2⟩⟩

end SentAnalysis
